import Mathlib

/-!
Verification development for the checkout orchestration path of a small
e-commerce microservice system (order-service, cart-service,
product-service, user-service).

The JavaScript sources are shallowly embedded:
* JS `number` arithmetic (IEEE-754 binary64, round-to-nearest-even) is
  modelled on `ℚ` by an explicit rounding function `fp64`, valid on the
  normal range (no overflow/subnormals, which the modelled values never
  reach).
* The POST /orders handler of order-service/server.js is the function
  `checkout`; its collaborators (cart fetch, price lookup, the database
  transaction, cart clear) are injected through the `Collab` structure so
  that failure behaviours can be instantiated.  Observable effects (the
  order store, the number of fetch and clear calls, the sequence of price
  lookups) are returned in `Result`.
* The cart-service handlers /cart/add, /cart/remove, /cart/clear are the
  function `applyOp` over a stored entry list.
-/

namespace ECommerce

/-! ## IEEE-754 binary64 model on ℚ (normal range)

The standard `Rat` arithmetic operations of the library are marked
irreducible, so the model uses its own addition and multiplication
built from `mkRat` on numerators and denominators; the lemmas
`qAdd_eq` and `qMul_eq` below prove them equal to `+` and `*`. -/

/-- Exact addition of rationals, via `mkRat` (equals `+`, see `qAdd_eq`). -/
def qAdd (a b : ℚ) : ℚ := mkRat (a.num * b.den + b.num * a.den) (a.den * b.den)

/-- Exact multiplication of rationals, via `mkRat` (equals `*`, see `qMul_eq`). -/
def qMul (a b : ℚ) : ℚ := mkRat (a.num * b.num) (a.den * b.den)

theorem qAdd_eq (a b : ℚ) : qAdd a b = a + b := (Rat.add_def' a b).symm

theorem qMul_eq (a b : ℚ) : qMul a b = a * b := by
  rw [Rat.mul_def, Rat.normalize_eq_mkRat]; rfl

/-- Round a rational to the nearest integer, ties to even, computed on
the numerator and denominator with integer arithmetic. -/
def rnear (q : ℚ) : ℤ :=
  let f := q.num.fdiv q.den
  let rm := q.num - f * q.den
  if 2 * rm < (q.den : ℤ) then f
  else if (q.den : ℤ) < 2 * rm then f + 1
  else if f % 2 = 0 then f else f + 1

/-- Fuel-indexed floor of log2 (counts halvings down to below 2). -/
def log2fAux : Nat → Nat → Nat
  | 0, _ => 0
  | fuel + 1, n => if n < 2 then 0 else log2fAux fuel (n / 2) + 1

/-- Floor of log2 of a natural number (0 for 0). -/
def log2floor (n : Nat) : Nat := log2fAux n n

/-- `2 ^ e` as a rational, for an integer exponent. -/
def pow2 (e : ℤ) : ℚ :=
  if 0 ≤ e then ((2 ^ e.toNat : ℕ) : ℚ) else mkRat 1 (2 ^ (-e).toNat)

/-- Floor of log2 of a positive rational. -/
def qlog2 (q : ℚ) : ℤ :=
  let k : ℤ := (log2floor q.num.natAbs : ℤ) - (log2floor q.den : ℤ)
  if pow2 k ≤ q then k else k - 1

/-- Round a positive rational to the nearest binary64 value
(53-bit significand, round-to-nearest, ties to even). -/
def fp64pos (q : ℚ) : ℚ :=
  let e := qlog2 q
  qMul ((rnear (qMul q (pow2 (52 - e))) : ℤ) : ℚ) (pow2 (e - 52))

/-- Round a rational to the nearest binary64 value (normal range).
This is the value JavaScript holds after `parseFloat` of the exact
decimal, and after each arithmetic operation. -/
def fp64 (q : ℚ) : ℚ :=
  if q.num = 0 then 0
  else if q.num < 0 then -(fp64pos (-q))
  else fp64pos q

/-- JS `+` on numbers: exact sum, rounded to binary64. -/
def fpAdd (x y : ℚ) : ℚ := fp64 (qAdd x y)

/-- JS `*` on numbers: exact product, rounded to binary64. -/
def fpMul (x y : ℚ) : ℚ := fp64 (qMul x y)

/-! ## Data model -/

/-- One entry of the fetched cart snapshot: `{productId, quantity}`. -/
structure CartEntry where
  productId : Nat
  quantity : Int
deriving DecidableEq

/-- A resolved line item as built in the pricing loop:
`{productId, quantity, price: parseFloat(p.data.price)}`. -/
structure Item where
  productId : Nat
  quantity : Int
  price : ℚ
deriving DecidableEq

/-- A persisted order: header row plus its order_items rows. -/
structure Order where
  orderId : Nat
  userId : Nat
  total : ℚ
  items : List Item
deriving DecidableEq

/-- The authenticated user extracted from the verified token. -/
structure User where
  userId : Nat
deriving DecidableEq

/-- Failures of an outbound collaborator call. -/
inductive CollabErr
  | unreachable
  | notFound
  | timeout
deriving DecidableEq

/-- Failures of the authenticate middleware: 401 'missing auth' and
401 'invalid token'. -/
inductive AuthErr
  | missingAuth
  | invalidToken
deriving DecidableEq

/-- Injectable collaborator behaviours for one checkout attempt.
`fetchCart` and `lookupPrice` take an attempt index (0 for the first
call) so that retry behaviour is observable; the handler only ever uses
index 0.  `persistOk` is whether the BEGIN/INSERT/COMMIT transaction
commits; `clearCart` is the POST /cart/clear call. -/
structure Collab where
  fetchCart : Nat → Except CollabErr (List CartEntry)
  lookupPrice : Nat → Nat → Except CollabErr ℚ
  persistOk : Except CollabErr Unit
  clearCart : Except CollabErr Unit

/-- Terminal outcome of one POST /orders request.  `authFailed`,
`emptyCart`, `orderFailed` and `success` are HTTP responses (401, 400,
500, 200); `cartFetchFailed` and `pricingFailed` are errors thrown
before the try block, which escape the async handler (no structured
response is produced). -/
inductive Outcome
  | authFailed (e : AuthErr)
  | emptyCart
  | cartFetchFailed (e : CollabErr)
  | pricingFailed (productId : Nat) (e : CollabErr)
  | orderFailed
  | success (orderId : Nat) (total : ℚ)
deriving DecidableEq

/-- Observable result of one checkout attempt: the outcome, the order
store afterwards, and the calls made to collaborators. -/
structure Result where
  outcome : Outcome
  store : List Order
  fetchCalls : Nat
  lookups : List Nat
  clearCalls : Nat
deriving DecidableEq

/-! ## Credential verification (`authenticate` middleware) -/

/-- JS `String.prototype.split(' ')` on a character list. -/
def jsSplitList : List Char → List Char → List String
  | [], acc => [String.mk acc.reverse]
  | c :: rest, acc =>
    if c = ' ' then String.mk acc.reverse :: jsSplitList rest []
    else jsSplitList rest (c :: acc)

/-- JS `h.split(' ')` for a string. -/
def jsSplit (s : String) : List String := jsSplitList s.data []

/-- JS `h.split(' ')[1]`: none when the header has no second field
(jwt.verify of undefined then throws). -/
def jsTokenOf (s : String) : Option String := (jsSplit s).get? 1

/-- The authenticate middleware of order-service/server.js:
`if(!h) 401 'missing auth'; try { jwt.verify(h.split(' ')[1]) } catch
{ 401 'invalid token' }`.  `verify` abstracts `jwt.verify` with the
fixed secret (signature and expiry check). -/
def authenticate (hdr : Option String) (verify : String → Except Unit User) :
    Except AuthErr User :=
  match hdr with
  | none => .error .missingAuth
  | some s =>
    if s = ("") then .error .missingAuth
    else
      match jsTokenOf s with
      | none => .error .invalidToken
      | some tok =>
        match verify tok with
        | .error _ => .error .invalidToken
        | .ok u => .ok u

/-! ## Pricing loop, total, persistence -/

/-- The pricing loop: `for (const it of cart) { await axios.get(
products/it.productId); items.push({productId, quantity, price:
parseFloat(...)}) }`.  Returns the sequence of lookups issued (one per
entry, in order, stopping at the first failure) and either the thrown
error or the built item list. -/
def resolvePrices (lookup : Nat → Nat → Except CollabErr ℚ) :
    List CartEntry → List Nat × Except (Nat × CollabErr) (List Item)
  | [] => ([], .ok [])
  | e :: rest =>
    match lookup e.productId 0 with
    | .error err => ([e.productId], .error (e.productId, err))
    | .ok p =>
      let r := resolvePrices lookup rest
      (e.productId :: r.1, r.2.map (fun items => ⟨e.productId, e.quantity, fp64 p⟩ :: items))

/-- `items.reduce((s,i)=> s + i.price * i.quantity, 0)` in binary64
arithmetic. -/
def jsTotal (items : List Item) : ℚ :=
  items.foldl (fun s i => fpAdd s (fpMul i.price (i.quantity : ℚ))) 0

/-- The persistence step (BEGIN; INSERT orders RETURNING id; INSERT
order_items per item; COMMIT).  The transaction either commits as a
whole, appending the order, or fails leaving the store unchanged; the
inserts themselves perform no validation of the items (the schema has
no CHECK constraints). -/
def persistOrder (userId : Nat) (total : ℚ) (items : List Item) (nextId : Nat)
    (store : List Order) (txOk : Except CollabErr Unit) :
    Except CollabErr (Nat × List Order) :=
  match txOk with
  | .error e => .error e
  | .ok _ => .ok (nextId, store ++ [⟨nextId, userId, total, items⟩])

/-! ## The POST /orders handler -/

/-- The POST /orders handler of order-service/server.js.  Failures of
the cart fetch or of a price lookup are thrown before the try block and
abort the attempt with nothing persisted and no cart clear.  Inside the
try block, a transaction failure leads to ROLLBACK and 500; after
COMMIT, a cart-clear failure is caught by the same catch block, which
issues a no-op ROLLBACK and responds 500 although the order stays
committed. -/
def checkout (hdr : Option String) (verify : String → Except Unit User)
    (c : Collab) (store : List Order) (nextId : Nat) : Result :=
  match authenticate hdr verify with
  | .error e => ⟨.authFailed e, store, 0, [], 0⟩
  | .ok user =>
    match c.fetchCart 0 with
    | .error e => ⟨.cartFetchFailed e, store, 1, [], 0⟩
    | .ok cart =>
      if cart.isEmpty then ⟨.emptyCart, store, 1, [], 0⟩
      else
        match (resolvePrices c.lookupPrice cart).2 with
        | .error pe =>
          ⟨.pricingFailed pe.1 pe.2, store, 1, (resolvePrices c.lookupPrice cart).1, 0⟩
        | .ok items =>
          match persistOrder user.userId (jsTotal items) items nextId store c.persistOk with
          | .error _ => ⟨.orderFailed, store, 1, (resolvePrices c.lookupPrice cart).1, 0⟩
          | .ok os =>
            match c.clearCart with
            | .error _ => ⟨.orderFailed, os.2, 1, (resolvePrices c.lookupPrice cart).1, 1⟩
            | .ok _ =>
              ⟨.success os.1 (jsTotal items), os.2, 1, (resolvePrices c.lookupPrice cart).1, 1⟩

/-! ## Cart service state (cart-service server.js) -/

/-- One stored cart entry in Redis. -/
structure StoredEntry where
  productId : Nat
  quantity : Int
deriving DecidableEq

/-- A cart-service operation: POST /cart/add, /cart/remove, /cart/clear. -/
inductive CartOp
  | add (productId : Nat) (quantity : Int)
  | remove (productId : Nat)
  | clear

/-- The body of /cart/add past the guard: `const i = cart.findIndex(it
=> it.productId == productId); if (i >= 0) cart[i].quantity += quantity;
else cart.push({productId, quantity})`. -/
def addEntry : List StoredEntry → Nat → Int → List StoredEntry
  | [], pid, q => [⟨pid, q⟩]
  | e :: rest, pid, q =>
    if e.productId = pid then ⟨e.productId, e.quantity + q⟩ :: rest
    else e :: addEntry rest pid q

/-- One cart-service handler applied to the stored cart.  The /cart/add
guard `if (!productId || !quantity) return 400` rejects falsy values
(0) without touching the cart; /cart/remove filters by productId;
/cart/clear deletes the key. -/
def applyOp (cart : List StoredEntry) : CartOp → List StoredEntry
  | .add pid q => if pid = 0 ∨ q = 0 then cart else addEntry cart pid q
  | .remove pid => cart.filter (fun e => e.productId != pid)
  | .clear => []

/-- The stored cart after a sequence of operations, starting from the
absent key (empty cart). -/
def runOps (ops : List CartOp) : List StoredEntry := ops.foldl applyOp []

/-! ## Decidability of `Except` equality (for concrete evaluations) -/

instance {ε α : Type} [DecidableEq ε] [DecidableEq α] : DecidableEq (Except ε α)
  | .error e, .error f =>
    if h : e = f then .isTrue (by rw [h]) else .isFalse (fun hh => h (Except.error.inj hh))
  | .error _, .ok _ => .isFalse Except.noConfusion
  | .ok _, .error _ => .isFalse Except.noConfusion
  | .ok a, .ok b =>
    if h : a = b then .isTrue (by rw [h]) else .isFalse (fun hh => h (Except.ok.inj hh))

/-! ## Concrete fixtures used to instantiate the theorems -/

/-- A token accepted by the concrete verifier. -/
def tokStr : String := "tok"

/-- A well-formed bearer header carrying the accepted token. -/
def bearerHeader : Option String := some ("Bearer tok")

/-- A concrete verifier: accepts exactly `tokStr`, as user 7. -/
def verifyTok : String → Except Unit User :=
  fun t => if t = tokStr then .ok ⟨7⟩ else .error ()

/-- Collaborators for the float-drift run: cart `[{productId:1,
quantity:3}]`, catalog price 0.10 (the decimal 1/10), everything
succeeds. -/
def floatCollab : Collab :=
  { fetchCart := fun _ => .ok [⟨1, 3⟩]
    lookupPrice := fun _ _ => .ok (mkRat 1 10)
    persistOk := .ok ()
    clearCart := .ok () }

/-- The resolved items of the float-drift run. -/
def floatItems : List Item := [⟨1, 3, fp64 (mkRat 1 10)⟩]

/-- Collaborators whose persistence transaction always fails. -/
def persistFailCollab : Collab :=
  { fetchCart := fun _ => .ok [⟨1, 2⟩]
    lookupPrice := fun _ _ => .ok 5
    persistOk := .error .unreachable
    clearCart := .ok () }

/-- Collaborators whose cart-clear call fails after a successful
persist. -/
def clearFailCollab : Collab :=
  { fetchCart := fun _ => .ok [⟨1, 2⟩]
    lookupPrice := fun _ _ => .ok 5
    persistOk := .ok ()
    clearCart := .error .unreachable }

/-- Collaborators returning an empty cart snapshot. -/
def emptyCartCollab : Collab :=
  { fetchCart := fun _ => .ok []
    lookupPrice := fun _ _ => .ok 5
    persistOk := .ok ()
    clearCart := .ok () }

/-- Collaborators whose price lookups always fail (product not in
catalog), with cart `[{productId:1, quantity:1}]`. -/
def pricingFailCollab : Collab :=
  { fetchCart := fun _ => .ok [⟨1, 1⟩]
    lookupPrice := fun _ _ => .error .notFound
    persistOk := .ok ()
    clearCart := .ok () }

/-- Collaborators returning a snapshot holding the same productId in
two entries. -/
def dupCollab : Collab :=
  { fetchCart := fun _ => .ok [⟨5, 1⟩, ⟨5, 2⟩]
    lookupPrice := fun _ _ => .ok 2
    persistOk := .ok ()
    clearCart := .ok () }

/-- Collaborators whose cart fetch fails on the first attempt and
would succeed on a retry. -/
def retryCollab : Collab :=
  { fetchCart := fun n => if n = 0 then .error .timeout else .ok [⟨1, 1⟩]
    lookupPrice := fun _ _ => .ok 2
    persistOk := .ok ()
    clearCart := .ok () }

/-- The duplicated-id snapshot served by `dupCollab`. -/
def dupCart : List CartEntry := [⟨5, 1⟩, ⟨5, 2⟩]

/-- The items the pricing loop builds from `dupCart` at price 2. -/
def dupItems : List Item := [⟨5, 1, 2⟩, ⟨5, 2, 2⟩]

/-! ## Helper lemmas -/

/-- If some cart entry's price lookup fails, the pricing loop fails. -/
theorem resolve_error_of_exists (lookup : Nat → Nat → Except CollabErr ℚ)
    (cart : List CartEntry)
    (h : ∃ e ∈ cart, ∀ p, lookup e.productId 0 ≠ .ok p) :
    ∃ pid err, (resolvePrices lookup cart).2 = .error (pid, err) := by
  induction cart with
  | nil => obtain ⟨e, he, _⟩ := h; exact absurd he (List.not_mem_nil e)
  | cons a rest ih =>
    obtain ⟨e, he, hfail⟩ := h
    cases hl : lookup a.productId 0 with
    | error err => exact ⟨a.productId, err, by simp [resolvePrices, hl]⟩
    | ok p =>
      rcases List.mem_cons.mp he with rfl | hmem
      · exact absurd hl (hfail p)
      · obtain ⟨pid, err, h2⟩ := ih ⟨e, hmem, hfail⟩
        exact ⟨pid, err, by simp [resolvePrices, hl, h2, Except.map]⟩

/-- Product ids after `addEntry`: unchanged when the id was present,
appended otherwise. -/
theorem addEntry_map_productId (pid : Nat) (q : Int) :
    ∀ l : List StoredEntry,
      (addEntry l pid q).map (fun e => e.productId)
        = if pid ∈ l.map (fun e => e.productId) then l.map (fun e => e.productId)
          else l.map (fun e => e.productId) ++ [pid]
  | [] => by simp [addEntry]
  | e :: rest => by
    by_cases h : e.productId = pid
    · simp [addEntry, h]
    · have hne : ¬ pid = e.productId := fun hh => h hh.symm
      by_cases hm : pid ∈ rest.map (fun e => e.productId)
      · simp [addEntry, h, addEntry_map_productId pid q rest, hm, hne]
      · simp [addEntry, h, addEntry_map_productId pid q rest, hm, hne]

/-- Every cart-service handler preserves distinctness of the stored
product ids. -/
theorem applyOp_nodup (op : CartOp) (l : List StoredEntry)
    (h : (l.map (fun e => e.productId)).Nodup) :
    ((applyOp l op).map (fun e => e.productId)).Nodup := by
  cases op with
  | add pid q =>
    by_cases hg : pid = 0 ∨ q = 0
    · simpa [applyOp, hg] using h
    · simp only [applyOp, hg, if_false]
      rw [addEntry_map_productId]
      by_cases hm : pid ∈ l.map (fun e => e.productId)
      · simpa [hm] using h
      · simp only [hm, if_false]
        rw [List.nodup_append]
        exact ⟨h, List.nodup_singleton pid, by simpa [List.disjoint_singleton] using hm⟩
  | remove pid =>
    have hs : ((l.filter (fun e => e.productId != pid)).map (fun e => e.productId)).Sublist
        (l.map (fun e => e.productId)) := (List.filter_sublist l).map _
    exact h.sublist hs
  | clear => simp [applyOp]

/-! ## Claim theorems -/

/-- C1: the claim states that every successful checkout computes
`order.total` as the exact decimal sum of unitPrice times quantity,
never in binary floating point.  The code computes the total with JS
doubles (`parseFloat` and `reduce` with `+`/`*`): for the cart
`[{productId:1, quantity:3}]` at catalog price 0.10 the checkout
succeeds, but the reported total differs both from the exact decimal
sum 3/10 and from the exact sum 3 times the parsed unit price — the
float drift the claim rules out. -/
theorem checkout_total_uses_binary_float :
    (checkout bearerHeader verifyTok floatCollab [] 1).outcome
      = .success 1 (jsTotal floatItems)
    ∧ jsTotal floatItems ≠ 3 * fp64 (mkRat 1 10)
    ∧ jsTotal floatItems ≠ mkRat 3 10 := by
  refine ⟨by decide, ?_, by decide⟩
  rw [← qMul_eq]; decide

/-- C2: the cart-clear collaborator is invoked only after the
persistence transaction succeeded; with any persister behaviour that
always fails, the number of cart-clear calls is zero. -/
theorem cartClear_only_after_persist (hdr : Option String)
    (verify : String → Except Unit User) (c : Collab) (store : List Order)
    (nextId : Nat) (hp : c.persistOk ≠ .ok ()) :
    (checkout hdr verify c store nextId).clearCalls = 0 := by
  cases hA : authenticate hdr verify with
  | error e => simp [checkout, hA]
  | ok user =>
    cases hF : c.fetchCart 0 with
    | error e => simp [checkout, hA, hF]
    | ok cart =>
      cases hE : cart.isEmpty with
      | true => simp [checkout, hA, hF, hE]
      | false =>
        cases hR : (resolvePrices c.lookupPrice cart).2 with
        | error pe => simp [checkout, hA, hF, hE, hR]
        | ok items =>
          cases hP : c.persistOk with
          | error e => simp [checkout, hA, hF, hE, hR, persistOrder, hP]
          | ok u => exact absurd hP hp

/-- C2 witness: with the always-failing persister, zero clear calls. -/
theorem cartClear_only_after_persist_witness :
    (checkout bearerHeader verifyTok persistFailCollab [] 1).clearCalls = 0 :=
  cartClear_only_after_persist bearerHeader verifyTok persistFailCollab [] 1 (by decide)

/-- C3: the claim states that when persistence succeeds and the
cart-clear call then fails, the checkout still reports success with the
order identifier.  In the code the cart-clear failure is caught by the
catch block, which responds 500 'order failed' (`orderFailed`), so the
claim's success report does not happen; the part of the claim that does
hold is that the committed order is not rolled back — the store still
holds the order. -/
theorem cartClear_failure_reports_order_failed :
    checkout bearerHeader verifyTok clearFailCollab [] 1
      = ⟨.orderFailed, [⟨1, 7, 10, [⟨1, 2, 5⟩]⟩], 1, [1], 1⟩ := by decide

/-- C4: a checkout attempt whose fetched cart snapshot is empty fails
with the empty-cart outcome and leaves the order store unchanged (no
lookups, no clear call). -/
theorem emptyCart_rejected_no_order (hdr : Option String)
    (verify : String → Except Unit User) (c : Collab) (store : List Order)
    (nextId : Nat) (u : User)
    (hA : authenticate hdr verify = .ok u) (hF : c.fetchCart 0 = .ok []) :
    checkout hdr verify c store nextId = ⟨.emptyCart, store, 1, [], 0⟩ := by
  simp [checkout, hA, hF]

/-- C4 witness: empty cart at concrete inputs. -/
theorem emptyCart_rejected_no_order_witness :
    checkout bearerHeader verifyTok emptyCartCollab [] 1 = ⟨.emptyCart, [], 1, [], 0⟩ :=
  emptyCart_rejected_no_order bearerHeader verifyTok emptyCartCollab [] 1 ⟨7⟩
    (by decide) (by decide)

/-- C5: if the price lookup of at least one snapshot entry fails, the
whole checkout attempt fails with the pricing-failure outcome, the
order store is unchanged (so no order, and in particular none built
from the successfully priced subset), and the cart is not cleared. -/
theorem pricing_failure_aborts_checkout (hdr : Option String)
    (verify : String → Except Unit User) (c : Collab) (store : List Order)
    (nextId : Nat) (u : User) (cart : List CartEntry)
    (hA : authenticate hdr verify = .ok u) (hF : c.fetchCart 0 = .ok cart)
    (hfail : ∃ e ∈ cart, ∀ p, c.lookupPrice e.productId 0 ≠ .ok p) :
    ∃ pid err, checkout hdr verify c store nextId
      = ⟨.pricingFailed pid err, store, 1, (resolvePrices c.lookupPrice cart).1, 0⟩ := by
  obtain ⟨pid, err, hre⟩ := resolve_error_of_exists c.lookupPrice cart hfail
  have hne : cart.isEmpty = false := by
    obtain ⟨e, he, _⟩ := hfail
    cases cart with
    | nil => exact absurd he (List.not_mem_nil e)
    | cons x xs => rfl
  exact ⟨pid, err, by simp [checkout, hA, hF, hne, hre]⟩

/-- C5 witness: a failing catalog lookup at concrete inputs. -/
theorem pricing_failure_aborts_checkout_witness :
    ∃ pid err, checkout bearerHeader verifyTok pricingFailCollab [] 1
      = ⟨.pricingFailed pid err, [], 1,
          (resolvePrices pricingFailCollab.lookupPrice [⟨1, 1⟩]).1, 0⟩ :=
  pricing_failure_aborts_checkout bearerHeader verifyTok pricingFailCollab [] 1 ⟨7⟩
    [⟨1, 1⟩] (by decide) (by decide)
    ⟨⟨1, 1⟩, by simp, fun p hp => by simp [pricingFailCollab] at hp⟩

/-- C6 counterexample: the claim states one price lookup per distinct
productId.  For the snapshot `[{productId:5, quantity:1}, {productId:5,
quantity:2}]` the code issues two lookups for the single distinct id 5,
refuting the claim. -/
theorem duplicate_entries_two_lookups :
    (checkout bearerHeader verifyTok dupCollab [] 1).lookups = [5, 5]
    ∧ (checkout bearerHeader verifyTok dupCollab [] 1).lookups.count 5 ≠ 1 := by
  exact ⟨by decide, by decide⟩

/-- C6 (amended): the pricing loop issues exactly one lookup per
snapshot entry, in snapshot order (an id occurring in several entries
is looked up once per entry), and each resolved item carries its
entry's productId and quantity unchanged. -/
theorem lookup_per_entry_quantities_preserved
    (lookup : Nat → Nat → Except CollabErr ℚ) (cart : List CartEntry)
    (items : List Item) (hok : (resolvePrices lookup cart).2 = .ok items) :
    (resolvePrices lookup cart).1 = cart.map (fun e => e.productId)
    ∧ items.map (fun i => i.productId) = cart.map (fun e => e.productId)
    ∧ items.map (fun i => i.quantity) = cart.map (fun e => e.quantity) := by
  induction cart generalizing items with
  | nil =>
    simp only [resolvePrices] at hok
    obtain rfl : ([] : List Item) = items := Except.ok.inj hok
    simp [resolvePrices]
  | cons a rest ih =>
    cases hl : lookup a.productId 0 with
    | error err => simp [resolvePrices, hl] at hok
    | ok p =>
      cases hr : (resolvePrices lookup rest).2 with
      | error x => simp [resolvePrices, hl, hr, Except.map] at hok
      | ok its =>
        have hcons : Item.mk a.productId a.quantity (fp64 p) :: its = items := by
          simp [resolvePrices, hl, hr, Except.map] at hok
          exact hok
        obtain rfl := hcons.symm
        obtain ⟨h1, h2, h3⟩ := ih its hr
        refine ⟨?_, ?_, ?_⟩
        · simp [resolvePrices, hl, h1]
        · simp [h2]
        · simp [h3]

/-- C6 witness: per-entry lookups and preserved quantities on the
duplicated-id snapshot. -/
theorem lookup_per_entry_quantities_preserved_witness :
    (resolvePrices dupCollab.lookupPrice dupCart).1 = dupCart.map (fun e => e.productId)
    ∧ dupItems.map (fun i => i.productId) = dupCart.map (fun e => e.productId)
    ∧ dupItems.map (fun i => i.quantity) = dupCart.map (fun e => e.quantity) :=
  lookup_per_entry_quantities_preserved dupCollab.lookupPrice dupCart dupItems (by decide)

/-- C7 counterexample: the claim states the persister fails with an
invalid-order error on an empty item list, a quantity of 0 or less, or
a negative unit price.  The code performs no such validation: both an
empty item list and an item with quantity 0 and unit price -5 are
persisted successfully. -/
theorem persist_accepts_invalid_order :
    persistOrder 7 0 [] 1 [] (.ok ()) = .ok (1, [⟨1, 7, 0, []⟩])
    ∧ persistOrder 7 (-10) [⟨1, 0, -5⟩] 1 [] (.ok ())
        = .ok (1, [⟨1, 7, -10, [⟨1, 0, -5⟩]⟩]) := by
  exact ⟨by decide, by decide⟩

/-- C7 (amended): the persister performs no input validation: whenever
the storage transaction itself succeeds, persist succeeds for every
item list — empty lists, non-positive quantities and negative unit
prices included — appending the order exactly as given. -/
theorem persist_no_validation (userId : Nat) (total : ℚ) (items : List Item)
    (nextId : Nat) (store : List Order) :
    persistOrder userId total items nextId store (.ok ())
      = .ok (nextId, store ++ [⟨nextId, userId, total, items⟩]) := rfl

/-- C8 counterexample: the claim states a failed cart fetch is retried
exactly once.  With a collaborator whose fetch fails at attempt 0 and
would succeed at attempt 1, the code makes a single fetch call (not
two) and aborts, so no retry happens. -/
theorem fetch_failure_not_retried :
    checkout bearerHeader verifyTok retryCollab [] 1
      = ⟨.cartFetchFailed .timeout, [], 1, [], 0⟩
    ∧ retryCollab.fetchCart 1 = .ok [⟨1, 1⟩]
    ∧ (checkout bearerHeader verifyTok retryCollab [] 1).fetchCalls ≠ 2 := by
  exact ⟨by decide, by decide, by decide⟩

/-- C8 (amended): collaborator calls are attempted exactly once, with
no retry; if the single cart-fetch attempt fails, or the pricing loop
fails, the attempt aborts with no side effects — the order store is
unchanged and the cart is not cleared — and the error escapes as the
failure outcome rather than a structured service-unavailable
response. -/
theorem single_attempt_no_side_effects (hdr : Option String)
    (verify : String → Except Unit User) (c : Collab) (store : List Order)
    (nextId : Nat) (u : User) (hA : authenticate hdr verify = .ok u) :
    (∀ e, c.fetchCart 0 = .error e →
      checkout hdr verify c store nextId = ⟨.cartFetchFailed e, store, 1, [], 0⟩)
    ∧ (∀ cart pid err, c.fetchCart 0 = .ok cart →
        (resolvePrices c.lookupPrice cart).2 = .error (pid, err) →
        checkout hdr verify c store nextId
          = ⟨.pricingFailed pid err, store, 1, (resolvePrices c.lookupPrice cart).1, 0⟩) := by
  constructor
  · intro e hF
    simp [checkout, hA, hF]
  · intro cart pid err hF hre
    have hne : cart.isEmpty = false := by
      cases cart with
      | nil => simp [resolvePrices] at hre
      | cons x xs => rfl
    simp [checkout, hA, hF, hne, hre]

/-- C8 witness: single fetch attempt, no side effects, at concrete
inputs. -/
theorem single_attempt_no_side_effects_witness :
    checkout bearerHeader verifyTok retryCollab [] 1
      = ⟨.cartFetchFailed .timeout, [], 1, [], 0⟩ :=
  (single_attempt_no_side_effects bearerHeader verifyTok retryCollab [] 1 ⟨7⟩
    (by decide)).1 .timeout (by decide)

/-- C9: credential verification fails with the missing-credential
error exactly when the credential is absent (the JS falsy check also
counts an empty header string as absent), and with the
invalid-credential error exactly when a credential is present but no
token can be extracted from it or the token fails verification; in
either case the attempt terminates as the auth-failed outcome with the
order store untouched and zero collaborator calls. -/
theorem auth_classification_and_no_side_effects (hdr : Option String)
    (verify : String → Except Unit User) (c : Collab) (store : List Order)
    (nextId : Nat) :
    (authenticate hdr verify = .error .missingAuth ↔ (hdr = none ∨ hdr = some ("")))
    ∧ (authenticate hdr verify = .error .invalidToken ↔
        ∃ s, hdr = some s ∧ s ≠ ("") ∧
          (jsTokenOf s = none ∨ ∃ t er, jsTokenOf s = some t ∧ verify t = .error er))
    ∧ (∀ e, authenticate hdr verify = .error e →
        checkout hdr verify c store nextId = ⟨.authFailed e, store, 0, [], 0⟩) := by
  have hmain : ∀ s : String, s ≠ ("") →
      (authenticate (some s) verify = .error .invalidToken ↔
        (jsTokenOf s = none ∨ ∃ t er, jsTokenOf s = some t ∧ verify t = .error er))
      ∧ authenticate (some s) verify ≠ .error .missingAuth := by
    intro s hs
    cases ht : jsTokenOf s with
    | none =>
      have hA : authenticate (some s) verify = .error .invalidToken := by
        simp [authenticate, hs, ht]
      rw [hA]
      exact ⟨⟨fun _ => Or.inl rfl, fun _ => rfl⟩, by simp⟩
    | some tok =>
      cases hv : verify tok with
      | error er =>
        have hA : authenticate (some s) verify = .error .invalidToken := by
          simp [authenticate, hs, ht, hv]
        rw [hA]
        exact ⟨⟨fun _ => Or.inr ⟨tok, er, rfl, hv⟩, fun _ => rfl⟩, by simp⟩
      | ok u =>
        have hA : authenticate (some s) verify = .ok u := by
          simp [authenticate, hs, ht, hv]
        rw [hA]
        refine ⟨⟨fun h => absurd h (by simp), ?_⟩, by simp⟩
        rintro (hnone | ⟨t, er, ht2, hv2⟩)
        · exact absurd hnone (by simp)
        · obtain rfl : tok = t := Option.some.inj ht2
          rw [hv] at hv2
          exact absurd hv2 (by simp)
  refine ⟨?_, ?_, ?_⟩
  · cases hdr with
    | none => simp [authenticate]
    | some s =>
      by_cases hs : s = ("")
      · simp [authenticate, hs]
      · rw [iff_iff_implies_and_implies]
        refine ⟨fun h => absurd h (hmain s hs).2, ?_⟩
        rintro (hnone | hsome)
        · exact absurd hnone (by simp)
        · exact absurd (Option.some.inj hsome) hs
  · cases hdr with
    | none => simp [authenticate]
    | some s =>
      by_cases hs : s = ("")
      · have hA : authenticate (some s) verify = .error .missingAuth := by
          simp [authenticate, hs]
        rw [hA]
        constructor
        · intro h; exact absurd h (by simp)
        · rintro ⟨s1, hs1, hne, _⟩
          obtain rfl : s = s1 := Option.some.inj hs1
          exact absurd hs hne
      · rw [(hmain s hs).1]
        constructor
        · intro h; exact ⟨s, rfl, hs, h⟩
        · rintro ⟨s1, hs1, _, hor⟩
          obtain rfl : s = s1 := Option.some.inj hs1
          exact hor
  · intro e hA
    simp [checkout, hA]

/-- C9 witness: a request with no authorization header is rejected
before any collaborator call. -/
theorem auth_classification_and_no_side_effects_witness :
    checkout none verifyTok emptyCartCollab [] 1
      = ⟨.authFailed .missingAuth, [], 0, [], 0⟩ :=
  (auth_classification_and_no_side_effects none verifyTok emptyCartCollab [] 1).2.2
    .missingAuth (by decide)

/-- C10: after any sequence of cart add, remove, and clear operations
starting from the absent key, the stored cart holds at most one entry
per productId (adding a present id increments that entry's quantity
instead of appending). -/
theorem cart_store_nodup_productIds : ∀ ops : List CartOp,
    ((runOps ops).map (fun e => e.productId)).Nodup := by
  have hgen : ∀ (ops : List CartOp) (l : List StoredEntry),
      (l.map (fun e => e.productId)).Nodup →
      ((ops.foldl applyOp l).map (fun e => e.productId)).Nodup := by
    intro ops
    induction ops with
    | nil => intro l hl; simpa using hl
    | cons op rest ih => intro l hl; exact ih _ (applyOp_nodup op l hl)
  intro ops
  simpa [runOps] using hgen ops [] (by simp)

end ECommerce
